import Mathlib

/-!
Shallow embedding of the issue-handler core of the linear-mcp server
(`src/core/types/tool.types.ts` and the `IssueHandler` class defined there).
Each handler is modelled as a pure function from an authentication state, the
tool input, and an oracle for the remote GraphQL client, to an
`Except`-failure-or-response together with a trace of the steps performed
(auth check, required-field validation, remote call), in the order the
TypeScript code performs them.

Members of `BaseHandler` (`verifyAuth`, `validateRequiredParams`,
`handleError`, `createResponse`, `createJsonResponse`) are not among the
given sources; they are modelled from the specification and marked as such.
-/

namespace LinearMcp

/-- JavaScript truthiness of an optional string value, as used by the
conditionals `if (args.filter?.identifier)`, `else if (args.query)` and
`if (args.filter?.project?.id?.eq)`: `undefined` and the empty string are
falsy; every non-empty string is truthy. -/
def jsTruthyStr : Option String → Bool
  | none => false
  | some s => s != ""

/-- Project reference carried on an issue in remote responses. -/
structure IssueProject where
  name : String
  deriving Repr, DecidableEq

/-- Workflow-state reference carried on an issue in remote responses. -/
structure IssueState where
  name : String
  deriving Repr, DecidableEq

/-- Assignee reference carried on an issue in remote responses. -/
structure IssueAssignee where
  name : String
  deriving Repr, DecidableEq

/-- Issue object as it appears in remote responses. -/
structure Issue where
  identifier : String
  title : String
  url : String
  project : Option IssueProject := none
  state : Option IssueState := none
  assignee : Option IssueAssignee := none
  deriving Repr, DecidableEq

/-- Payload of the `issueCreate` mutation result. -/
structure IssueCreatePayload where
  success : Bool
  issue : Option Issue := none
  deriving Repr, DecidableEq

/-- Remote result of `client.createIssue`. -/
structure CreateIssueResponse where
  issueCreate : IssueCreatePayload
  deriving Repr, DecidableEq

/-- Payload of the `issueUpdate` mutation result; the response carries at
most a single issue even for a bulk update. -/
structure UpdateIssuePayload where
  success : Bool
  issue : Option Issue := none
  deriving Repr, DecidableEq

/-- Remote result of `client.updateIssues`. -/
structure UpdateIssueResponse where
  issueUpdate : UpdateIssuePayload
  deriving Repr, DecidableEq

/-- Payload of the `issueDelete` mutation result. -/
structure DeleteIssuePayload where
  success : Bool
  deriving Repr, DecidableEq

/-- Remote result of `client.deleteIssue` / `client.deleteIssues`. -/
structure DeleteIssueResponse where
  issueDelete : DeleteIssuePayload
  deriving Repr, DecidableEq

/-- Pagination metadata of a search result page. -/
structure PageInfo where
  hasNextPage : Bool := false
  endCursor : Option String := none
  deriving Repr, DecidableEq

/-- Connection of issues returned by the remote search query. -/
structure IssueConnection where
  nodes : List Issue
  pageInfo : PageInfo := {}
  deriving Repr, DecidableEq

/-- Remote result of `client.searchIssues`. -/
structure SearchIssuesResponse where
  issues : IssueConnection
  deriving Repr, DecidableEq

/-- Input of `handleCreateIssue`; optional fields are `Option`, absence is
`none`. -/
structure CreateIssueInput where
  title : Option String := none
  description : Option String := none
  teamId : Option String := none
  assigneeId : Option String := none
  priority : Option Int := none
  createAsUser : Option String := none
  displayIconUrl : Option String := none
  deriving Repr, DecidableEq

/-- The uniform update applied by a bulk update (subset of
stateId / assigneeId / priority). -/
structure UpdatePayload where
  stateId : Option String := none
  assigneeId : Option String := none
  priority : Option Int := none
  deriving Repr, DecidableEq

/-- Input of `handleBulkUpdateIssues`. -/
structure BulkUpdateIssuesInput where
  issueIds : Option (List String) := none
  update : Option UpdatePayload := none
  deriving Repr, DecidableEq

/-- The `{eq: ...}` leaf of the nested project filter input. -/
structure ProjectIdFilter where
  eq : Option String := none
  deriving Repr, DecidableEq

/-- The `{id: {eq: ...}}` project filter input. -/
structure ProjectFilterInput where
  id : Option ProjectIdFilter := none
  deriving Repr, DecidableEq

/-- The nested `filter` member of the search input, read through the
optional chains `args.filter?.identifier` and
`args.filter?.project?.id?.eq`. -/
structure SearchFilterInput where
  identifier : Option String := none
  project : Option ProjectFilterInput := none
  deriving Repr, DecidableEq

/-- Input of `handleSearchIssues`; every field is optional. -/
structure SearchIssuesInput where
  query : Option String := none
  filter : Option SearchFilterInput := none
  teamIds : Option (List String) := none
  assigneeIds : Option (List String) := none
  states : Option (List String) := none
  priority : Option Int := none
  first : Option Nat := none
  after : Option String := none
  orderBy : Option String := none
  deriving Repr, DecidableEq

/-- Input of `handleSearchIssuesByIdentifier`. -/
structure SearchIssuesByIdentifierInput where
  identifiers : Option (List String) := none
  deriving Repr, DecidableEq

/-- Input of `handleDeleteIssue`. -/
structure DeleteIssueInput where
  id : Option String := none
  deriving Repr, DecidableEq

/-- Input of `handleDeleteIssues`. -/
structure DeleteIssuesInput where
  ids : Option (List String) := none
  deriving Repr, DecidableEq

/-- Errors thrown inside a handler try-block: the auth error from
`verifyAuth`, the validation error from `validateRequiredParams`, and plain
`new Error(message)` throws from the handler bodies. -/
inductive ThrownError where
  | authRequired
  | missingParams (fields : List String)
  | plain (message : String)
  deriving Repr, DecidableEq

/-- Failures surfaced to the caller after the catch block has routed the
thrown error through `handleError`. -/
inductive HandlerFailure where
  | auth
  | validation (fields : List String)
  | operationFailed (operation : String) (message : String)
  deriving Repr, DecidableEq

/-- Observable steps a handler performs, recorded in order. -/
inductive Event where
  | authCheck
  | validationCheck (fields : List String)
  | remoteCall (name : String)
  deriving Repr, DecidableEq

/-- Response returned to the caller: narrative mode is plain text,
structured mode is the remote search payload passed through. -/
inductive BaseToolResponse where
  | text (content : String)
  | json (payload : SearchIssuesResponse)
  deriving Repr, DecidableEq

/-- Authentication state observed by the auth gate. -/
structure AuthState where
  hasValidClient : Bool
  deriving Repr, DecidableEq

/-- Modelled from the spec: `BaseHandler.verifyAuth` lives in
`base.handler.ts`, which is not among the given sources. Spec section 4.4
gives its contract, `verifyAuth() -> ClientHandle | fails(AuthError)`; the
client handle itself is represented by the remote-invocation oracle each
handler receives separately. -/
def verifyAuth (auth : AuthState) : Except ThrownError Unit :=
  if auth.hasValidClient then .ok () else .error .authRequired

/-- Modelled from the spec: `BaseHandler.validateRequiredParams` lives in
`base.handler.ts`, which is not among the given sources. Spec section 4.2:
"missing required field -> validation failure naming the missing field".
Each check pairs a field name with its presence. -/
def validateRequiredParams (checks : List (String × Bool)) :
    Except ThrownError Unit :=
  match (checks.filter (fun c => !c.2)).map (fun c => c.1) with
  | [] => .ok ()
  | missing => .error (.missingParams missing)

/-- Modelled from the spec: `BaseHandler.handleError` lives in
`base.handler.ts`, which is not among the given sources. Spec section 7:
validation and auth errors are raised immediately and reach the caller as
such, while remote-operation failures are re-raised as a named,
operation-specific failure. -/
def handleError (e : ThrownError) (operation : String) : HandlerFailure :=
  match e with
  | .authRequired => .auth
  | .missingParams fields => .validation fields
  | .plain message => .operationFailed operation message

/-- Mirrors the `try { ... } catch (error) { this.handleError(error, op) }`
wrapper present in every handler body. -/
def catchWith (operation : String) :
    Except ThrownError BaseToolResponse → Except HandlerFailure BaseToolResponse
  | .ok r => .ok r
  | .error e => .error (handleError e operation)

/-- Modelled from the spec: `BaseHandler.createResponse` (narrative mode)
wraps a plain-text summary unchanged. -/
def createResponse (content : String) : BaseToolResponse := .text content

/-- Modelled from the spec: `BaseHandler.createJsonResponse` (structured
mode) passes the remote result through unchanged as a structured document,
preserving pagination cursors and full field sets. -/
def createJsonResponse (payload : SearchIssuesResponse) : BaseToolResponse :=
  .json payload

/-- Filter object assembled by `handleSearchIssues`. Field values record the
payload of the clause written by the TypeScript code: `identifier` holds the
list `l` of `{identifier: {in: l}}`, `search` the raw query of
`{search: q}`, `project` the id of `{project: {id: {eq: v}}}`, `team` /
`assignee` / `state` the lists of their `{in: ...}` clauses, and `priority`
the number of `{priority: {eq: p}}`; `none` means the clause is absent. -/
structure IssueFilter where
  identifier : Option (List String) := none
  search : Option String := none
  project : Option String := none
  team : Option (List String) := none
  assignee : Option (List String) := none
  state : Option (List String) := none
  priority : Option Int := none
  deriving Repr, DecidableEq

/-- The value of the optional chain `args.filter?.identifier`. -/
def searchIdentifierInput (args : SearchIssuesInput) : Option String :=
  args.filter.bind (fun f => f.identifier)

/-- The value of the optional chain `args.filter?.project?.id?.eq`. -/
def searchProjectEqInput (args : SearchIssuesInput) : Option String :=
  ((args.filter.bind (fun f => f.project)).bind (fun p => p.id)).bind
    (fun i => i.eq)

/-- Filter assembly of `handleSearchIssues` (tool.types.ts, the
`const filter` block): identifier-based search first; else a truthy free-text
query becomes a `search` clause; then project, team, assignee and state
clauses from truthy inputs; finally `typeof args.priority === "number"` sets
the priority clause. An array-valued input is truthy whenever present, even
when empty. -/
def buildSearchFilter (args : SearchIssuesInput) : IssueFilter :=
  let f0 : IssueFilter := {}
  -- if (args.filter?.identifier) { filter.identifier = {in: [id]} }
  -- else if (args.query) { filter.search = args.query }
  let f1 :=
    if jsTruthyStr (searchIdentifierInput args) then
      { f0 with identifier := some [(searchIdentifierInput args).getD ""] }
    else if jsTruthyStr args.query then
      { f0 with search := args.query }
    else f0
  -- if (args.filter?.project?.id?.eq) { filter.project = {id: {eq: v}} }
  let f2 :=
    if jsTruthyStr (searchProjectEqInput args) then
      { f1 with project := searchProjectEqInput args }
    else f1
  -- if (args.teamIds) { filter.team = {id: {in: args.teamIds}} }
  let f3 :=
    match args.teamIds with
    | some ts => { f2 with team := some ts }
    | none => f2
  -- if (args.assigneeIds) { filter.assignee = {id: {in: args.assigneeIds}} }
  let f4 :=
    match args.assigneeIds with
    | some ls => { f3 with assignee := some ls }
    | none => f3
  -- if (args.states) { filter.state = {name: {in: args.states}} }
  let f5 :=
    match args.states with
    | some ss => { f4 with state := some ss }
    | none => f4
  -- if (typeof args.priority === "number") { filter.priority = {eq: p} }
  match args.priority with
  | some p => { f5 with priority := some p }
  | none => f5

/-- Arguments of one remote `searchIssues` invocation. -/
structure SearchIssuesCall where
  filter : IssueFilter
  first : Nat
  after : Option String
  orderBy : String
  deriving Repr, DecidableEq

/-- The remote invocation made by `handleSearchIssues`:
`client.searchIssues(filter, args.first || 50, args.after,
args.orderBy || "updatedAt")`; `||` falls back on any falsy value, so the
number `0` and the empty string also take the default. -/
def searchIssuesCall (args : SearchIssuesInput) : SearchIssuesCall :=
  { filter := buildSearchFilter args
    first :=
      match args.first with
      | some n => if n == 0 then 50 else n
      | none => 50
    after := args.after
    orderBy :=
      match args.orderBy with
      | some s => if s == "" then "updatedAt" else s
      | none => "updatedAt" }

/-- Result of a handler: the caller-visible outcome plus the trace of
performed steps. -/
abbrev HandlerResult := Except HandlerFailure BaseToolResponse × List Event

/-- Try-block body of `IssueHandler.handleCreateIssue`: auth gate, required
fields title / description / teamId, remote `createIssue`, success and
payload check, narrative summary. -/
def createIssueTry (auth : AuthState) (args : CreateIssueInput)
    (remote : CreateIssueInput → CreateIssueResponse) :
    Except ThrownError BaseToolResponse × List Event :=
  match verifyAuth auth with
  | .error e => (.error e, [.authCheck])
  | .ok _ =>
    match validateRequiredParams
        [("title", args.title.isSome), ("description", args.description.isSome),
         ("teamId", args.teamId.isSome)] with
    | .error e =>
        (.error e,
         [.authCheck, .validationCheck ["title", "description", "teamId"]])
    | .ok _ =>
      let result := remote args
      let tr : List Event :=
        [.authCheck, .validationCheck ["title", "description", "teamId"],
         .remoteCall "createIssue"]
      -- if (!result.issueCreate.success || !result.issueCreate.issue) throw
      match result.issueCreate.issue with
      | none => (.error (.plain "Failed to create issue"), tr)
      | some issue =>
        if !result.issueCreate.success then
          (.error (.plain "Failed to create issue"), tr)
        else
          (.ok (createResponse
            ("Successfully created issue\n" ++
             "Issue: " ++ issue.identifier ++ "\n" ++
             "Title: " ++ issue.title ++ "\n" ++
             "URL: " ++ issue.url ++ "\n" ++
             "Project: " ++
               (match issue.project with
                | some p => p.name
                | none => "None"))), tr)

/-- `IssueHandler.handleCreateIssue`: the try body wrapped in the catch that
routes every thrown error through `handleError(error, "create issue")`. -/
def handleCreateIssue (auth : AuthState) (args : CreateIssueInput)
    (remote : CreateIssueInput → CreateIssueResponse) : HandlerResult :=
  let body := createIssueTry auth args remote
  (catchWith "create issue" body.1, body.2)

/-- Try-block body of `IssueHandler.handleBulkUpdateIssues`: auth gate,
required fields issueIds / update, one remote `updateIssues` call for the
whole batch, success check, then a count taken from the input list. The
`Array.isArray(args.issueIds)` guard always holds in this typed embedding. -/
def bulkUpdateIssuesTry (auth : AuthState) (args : BulkUpdateIssuesInput)
    (remote : List String → UpdatePayload → UpdateIssueResponse) :
    Except ThrownError BaseToolResponse × List Event :=
  match verifyAuth auth with
  | .error e => (.error e, [.authCheck])
  | .ok _ =>
    match validateRequiredParams
        [("issueIds", args.issueIds.isSome), ("update", args.update.isSome)] with
    | .error e =>
        (.error e, [.authCheck, .validationCheck ["issueIds", "update"]])
    | .ok _ =>
      let issueIds := args.issueIds.getD []
      let result := remote issueIds (args.update.getD {})
      let tr : List Event :=
        [.authCheck, .validationCheck ["issueIds", "update"],
         .remoteCall "updateIssues"]
      if !result.issueUpdate.success then
        (.error (.plain "Failed to update issues"), tr)
      else
        -- updatedCount = args.issueIds.length
        (.ok (createResponse
          ("Successfully updated " ++ toString issueIds.length ++ " issues")),
         tr)

/-- `IssueHandler.handleBulkUpdateIssues` with its catch wrapper. -/
def handleBulkUpdateIssues (auth : AuthState) (args : BulkUpdateIssuesInput)
    (remote : List String → UpdatePayload → UpdateIssueResponse) :
    HandlerResult :=
  let body := bulkUpdateIssuesTry auth args remote
  (catchWith "update issues" body.1, body.2)

/-- Try-block body of `IssueHandler.handleSearchIssues`: auth gate, filter
assembly, one remote `searchIssues` call, and a structured pass-through of
the result. There is no required-field validation: every input is optional. -/
def searchIssuesTry (auth : AuthState) (args : SearchIssuesInput)
    (remote : SearchIssuesCall → SearchIssuesResponse) :
    Except ThrownError BaseToolResponse × List Event :=
  match verifyAuth auth with
  | .error e => (.error e, [.authCheck])
  | .ok _ =>
    let result := remote (searchIssuesCall args)
    (.ok (createJsonResponse result), [.authCheck, .remoteCall "searchIssues"])

/-- `IssueHandler.handleSearchIssues` with its catch wrapper. -/
def handleSearchIssues (auth : AuthState) (args : SearchIssuesInput)
    (remote : SearchIssuesCall → SearchIssuesResponse) : HandlerResult :=
  let body := searchIssuesTry auth args remote
  (catchWith "search issues" body.1, body.2)

/-- One block of the narrative listing produced by
`handleSearchIssuesByIdentifier` for a found issue. -/
def formatIssueSummary (issue : Issue) : String :=
  issue.identifier ++ ": " ++ issue.title ++ "\n" ++
  (match issue.state with
   | some s => "Status: " ++ s.name ++ "\n"
   | none => "") ++
  "URL: " ++ issue.url ++ "\n" ++
  (match issue.assignee with
   | some a => "Assignee: " ++ a.name ++ "\n"
   | none => "") ++
  (match issue.project with
   | some p => "Project: " ++ p.name ++ "\n"
   | none => "")

/-- Try-block body of `IssueHandler.handleSearchIssuesByIdentifier`: auth
gate, required field identifiers, a remote `searchIssues` call with filter
`{identifier: {in: identifiers}}`, page size 100 and order `updatedAt`;
zero matches yield an informational message listing the queried
identifiers, otherwise a narrative listing of the found issues. -/
def searchIssuesByIdentifierTry (auth : AuthState)
    (args : SearchIssuesByIdentifierInput)
    (remote : SearchIssuesCall → SearchIssuesResponse) :
    Except ThrownError BaseToolResponse × List Event :=
  match verifyAuth auth with
  | .error e => (.error e, [.authCheck])
  | .ok _ =>
    match validateRequiredParams [("identifiers", args.identifiers.isSome)] with
    | .error e => (.error e, [.authCheck, .validationCheck ["identifiers"]])
    | .ok _ =>
      let identifiers := args.identifiers.getD []
      let result := remote
        { filter := { identifier := some identifiers }
          first := 100
          after := none
          orderBy := "updatedAt" }
      let tr : List Event :=
        [.authCheck, .validationCheck ["identifiers"],
         .remoteCall "searchIssues"]
      -- if (!result.issues.nodes.length) return the informational message
      if result.issues.nodes.isEmpty then
        (.ok (createResponse
          ("No issues found with identifiers: " ++
           String.intercalate ", " identifiers)), tr)
      else
        (.ok (createResponse
          (String.intercalate "\n"
            (result.issues.nodes.map formatIssueSummary))), tr)

/-- `IssueHandler.handleSearchIssuesByIdentifier` with its catch wrapper. -/
def handleSearchIssuesByIdentifier (auth : AuthState)
    (args : SearchIssuesByIdentifierInput)
    (remote : SearchIssuesCall → SearchIssuesResponse) : HandlerResult :=
  let body := searchIssuesByIdentifierTry auth args remote
  (catchWith "search issues by identifier" body.1, body.2)

/-- Try-block body of `IssueHandler.handleDeleteIssue`: auth gate, required
field id, remote `deleteIssue`, success check, confirmation naming the
deleted id. -/
def deleteIssueTry (auth : AuthState) (args : DeleteIssueInput)
    (remote : String → DeleteIssueResponse) :
    Except ThrownError BaseToolResponse × List Event :=
  match verifyAuth auth with
  | .error e => (.error e, [.authCheck])
  | .ok _ =>
    match validateRequiredParams [("id", args.id.isSome)] with
    | .error e => (.error e, [.authCheck, .validationCheck ["id"]])
    | .ok _ =>
      let id := args.id.getD ""
      let result := remote id
      let tr : List Event :=
        [.authCheck, .validationCheck ["id"], .remoteCall "deleteIssue"]
      if !result.issueDelete.success then
        (.error (.plain "Failed to delete issue"), tr)
      else
        (.ok (createResponse ("Successfully deleted issue " ++ id)), tr)

/-- `IssueHandler.handleDeleteIssue` with its catch wrapper. -/
def handleDeleteIssue (auth : AuthState) (args : DeleteIssueInput)
    (remote : String → DeleteIssueResponse) : HandlerResult :=
  let body := deleteIssueTry auth args remote
  (catchWith "delete issue" body.1, body.2)

/-- Try-block body of `IssueHandler.handleDeleteIssues`: auth gate, required
field ids, one remote `deleteIssues` call, success check, confirmation with
the count and the joined list of ids. -/
def deleteIssuesTry (auth : AuthState) (args : DeleteIssuesInput)
    (remote : List String → DeleteIssueResponse) :
    Except ThrownError BaseToolResponse × List Event :=
  match verifyAuth auth with
  | .error e => (.error e, [.authCheck])
  | .ok _ =>
    match validateRequiredParams [("ids", args.ids.isSome)] with
    | .error e => (.error e, [.authCheck, .validationCheck ["ids"]])
    | .ok _ =>
      let ids := args.ids.getD []
      let result := remote ids
      let tr : List Event :=
        [.authCheck, .validationCheck ["ids"], .remoteCall "deleteIssues"]
      if !result.issueDelete.success then
        (.error (.plain "Failed to delete issues"), tr)
      else
        (.ok (createResponse
          ("Successfully deleted " ++ toString ids.length ++ " issues: " ++
           String.intercalate ", " ids)), tr)

/-- `IssueHandler.handleDeleteIssues` with its catch wrapper. -/
def handleDeleteIssues (auth : AuthState) (args : DeleteIssuesInput)
    (remote : List String → DeleteIssueResponse) : HandlerResult :=
  let body := deleteIssuesTry auth args remote
  (catchWith "delete issues" body.1, body.2)


/-! Concrete inputs and remote oracles used by witnesses and
counterexamples. -/

/-- Search input carrying both an identifier filter (the empty string, a
present but falsy value) and a free-text query. -/
def c1Args : SearchIssuesInput :=
  { query := some "login bug", filter := some { identifier := some "" } }

/-- Search input carrying a non-empty identifier filter and a free-text
query. -/
def c1AmArgs : SearchIssuesInput :=
  { query := some "crash", filter := some { identifier := some "MIC-78" } }

/-- Create-issue input with all required fields present. -/
def c2CreateArgs : CreateIssueInput :=
  { title := some "t", description := some "d", teamId := some "team-1" }

/-- Remote oracle whose create-issue result reports failure. -/
def c2CreateRemote : CreateIssueInput → CreateIssueResponse :=
  fun _ => { issueCreate := { success := false, issue := none } }

/-- Remote oracle whose bulk-delete result reports failure. -/
def c2DeleteRemote : List String → DeleteIssueResponse :=
  fun _ => { issueDelete := { success := false } }

/-- Remote oracle whose bulk-update result reports success. -/
def c3Remote : List String → UpdatePayload → UpdateIssueResponse :=
  fun _ _ => { issueUpdate := { success := true } }

/-- Remote search oracle returning one issue and a pagination cursor. -/
def c5Remote : SearchIssuesCall → SearchIssuesResponse :=
  fun _ =>
    { issues :=
        { nodes := [{ identifier := "MIC-1", title := "t", url := "u" }]
          pageInfo := { hasNextPage := true, endCursor := some "cursor-abc" } } }

/-- Remote search oracle returning an empty page. -/
def c6Remote : SearchIssuesCall → SearchIssuesResponse :=
  fun _ => { issues := { nodes := [] } }

/-- Remote search oracle returning zero matches. -/
def c8Remote : SearchIssuesCall → SearchIssuesResponse :=
  fun _ => { issues := { nodes := [] } }

/-- Remote oracle whose single-delete result reports success. -/
def c9Remote : String → DeleteIssueResponse :=
  fun _ => { issueDelete := { success := true } }

/-- Search input with a present-but-empty query and priority 0. -/
def c10Args : SearchIssuesInput := { query := some "", priority := some 0 }

/-! Characterizations of the assembled search filter, proved once and shared
by the filter claims. -/

/-- The priority clause of the assembled filter is exactly the priority
input: present (even 0) iff supplied. -/
theorem buildSearchFilter_priority (args : SearchIssuesInput) :
    (buildSearchFilter args).priority = args.priority := by
  rcases args with ⟨q, fl, tIds, aIds, sts, pr, fst, aft, ob⟩
  cases tIds <;> cases aIds <;> cases sts <;> cases pr <;>
    simp [buildSearchFilter, apply_ite (IssueFilter.priority)]

/-- The identifier clause of the assembled filter is present exactly when
the identifier input is truthy, and then wraps it in a singleton list. -/
theorem buildSearchFilter_identifier (args : SearchIssuesInput) :
    (buildSearchFilter args).identifier =
      (if jsTruthyStr (searchIdentifierInput args) then
        some [(searchIdentifierInput args).getD ""] else none) := by
  rcases args with ⟨q, fl, tIds, aIds, sts, pr, fst, aft, ob⟩
  cases tIds <;> cases aIds <;> cases sts <;> cases pr <;>
    simp [buildSearchFilter, apply_ite (IssueFilter.identifier)]

/-- The search clause of the assembled filter is present exactly when the
identifier input is falsy and the query is truthy. -/
theorem buildSearchFilter_search (args : SearchIssuesInput) :
    (buildSearchFilter args).search =
      (if jsTruthyStr (searchIdentifierInput args) then none
       else if jsTruthyStr args.query then args.query else none) := by
  rcases args with ⟨q, fl, tIds, aIds, sts, pr, fst, aft, ob⟩
  cases tIds <;> cases aIds <;> cases sts <;> cases pr <;>
    simp [buildSearchFilter, apply_ite (IssueFilter.search)]

/-- Running `handleSearchIssues` under valid authentication makes exactly
one remote call, at `searchIssuesCall args`, and passes its result through. -/
theorem handleSearchIssues_ok (auth : AuthState) (args : SearchIssuesInput)
    (remote : SearchIssuesCall → SearchIssuesResponse)
    (hauth : auth.hasValidClient = true) :
    handleSearchIssues auth args remote =
      (.ok (.json (remote (searchIssuesCall args))),
       [.authCheck, .remoteCall "searchIssues"]) := by
  simp [handleSearchIssues, searchIssuesTry, verifyAuth, hauth, catchWith,
        createJsonResponse]

/-! Claim theorems. -/

/-- C1, as stated, is false on the code: an input whose identifier filter is
the empty string contains an identifier filter and a free-text query, yet
the assembled filter has no identifier clause and does contain a search
clause, because `if (args.filter?.identifier)` treats the empty string as
absent and falls through to the query branch. -/
theorem c1_counterexample :
    (searchIdentifierInput c1Args).isSome = true ∧
    c1Args.query.isSome = true ∧
    ¬ ((buildSearchFilter c1Args).identifier.isSome = true ∧
       (buildSearchFilter c1Args).search = none) := by
  decide

/-- C1 (amended): for every search-issues input whose identifier filter is
present and non-empty, the assembled filter contains the identifier clause
`{in: [identifier]}` and no search clause, whatever the free-text query;
the free-text query is never applied. -/
theorem c1_nonempty_identifier_supersedes_query (args : SearchIssuesInput)
    (s : String) (hid : searchIdentifierInput args = some s) (hne : s ≠ "") :
    (buildSearchFilter args).identifier = some [s] ∧
    (buildSearchFilter args).search = none := by
  constructor
  · rw [buildSearchFilter_identifier, hid]
    simp [jsTruthyStr, hne]
  · rw [buildSearchFilter_search, hid]
    simp [jsTruthyStr, hne]

/-- Witness for the amended C1 at the concrete input `c1AmArgs`: identifier
"MIC-78" supplied together with the query "crash". -/
theorem c1_nonempty_identifier_supersedes_query_witness :
    (buildSearchFilter c1AmArgs).identifier = some ["MIC-78"] ∧
    (buildSearchFilter c1AmArgs).search = none :=
  c1_nonempty_identifier_supersedes_query c1AmArgs "MIC-78" rfl (by decide)

/-- C2: whenever the remote result reports `success = false` (or, for
create-issue, the expected issue payload is absent), the handler surfaces an
operation-failed condition naming the attempted operation ("create issue",
"delete issues") and never returns a success response. -/
theorem c2_remote_failure_raises_operation_failed :
    (∀ (auth : AuthState) (args : CreateIssueInput)
        (remote : CreateIssueInput → CreateIssueResponse),
      auth.hasValidClient = true →
      args.title.isSome = true → args.description.isSome = true →
      args.teamId.isSome = true →
      ((remote args).issueCreate.success = false ∨
       (remote args).issueCreate.issue = none) →
      (handleCreateIssue auth args remote).1 =
        .error (.operationFailed "create issue" "Failed to create issue")) ∧
    (∀ (auth : AuthState) (args : DeleteIssuesInput)
        (remote : List String → DeleteIssueResponse),
      auth.hasValidClient = true → args.ids.isSome = true →
      (remote (args.ids.getD [])).issueDelete.success = false →
      (handleDeleteIssues auth args remote).1 =
        .error (.operationFailed "delete issues" "Failed to delete issues")) := by
  constructor
  · intro auth args remote hauth ht hd htm hfail
    rcases hfail with h | h
    · cases hi : (remote args).issueCreate.issue <;>
        simp [handleCreateIssue, createIssueTry, verifyAuth, hauth,
              validateRequiredParams, ht, hd, htm, catchWith, handleError, hi, h]
    · simp [handleCreateIssue, createIssueTry, verifyAuth, hauth,
            validateRequiredParams, ht, hd, htm, catchWith, handleError, h]
  · intro auth args remote hauth hids hfail
    simp [handleDeleteIssues, deleteIssuesTry, verifyAuth, hauth,
          validateRequiredParams, hids, hfail, catchWith, handleError]

/-- Witness for C2: a failing create-issue result and a failing bulk-delete
result each surface the named operation-failed condition. -/
theorem c2_remote_failure_raises_operation_failed_witness :
    (handleCreateIssue ⟨true⟩ c2CreateArgs c2CreateRemote).1 =
      .error (.operationFailed "create issue" "Failed to create issue") ∧
    (handleDeleteIssues ⟨true⟩ { ids := some ["ENG-1", "ENG-2"] }
        c2DeleteRemote).1 =
      .error (.operationFailed "delete issues" "Failed to delete issues") :=
  ⟨c2_remote_failure_raises_operation_failed.1 ⟨true⟩ c2CreateArgs
      c2CreateRemote rfl rfl rfl rfl (Or.inl rfl),
   c2_remote_failure_raises_operation_failed.2 ⟨true⟩
      { ids := some ["ENG-1", "ENG-2"] } c2DeleteRemote rfl rfl rfl⟩

/-- C3: a bulk update of N issue identifiers whose remote result reports
success returns the narrative "Successfully updated N issues", where N is
the length of the input identifier list, for every remote oracle and hence
regardless of per-item outcome at the remote service. -/
theorem c3_bulk_update_reports_input_count (auth : AuthState)
    (ids : List String) (upd : UpdatePayload)
    (remote : List String → UpdatePayload → UpdateIssueResponse)
    (hauth : auth.hasValidClient = true)
    (hsucc : (remote ids upd).issueUpdate.success = true) :
    (handleBulkUpdateIssues auth { issueIds := some ids, update := some upd }
        remote).1 =
      .ok (.text ("Successfully updated " ++ toString ids.length ++ " issues")) := by
  simp [handleBulkUpdateIssues, bulkUpdateIssuesTry, verifyAuth, hauth,
        validateRequiredParams, catchWith, createResponse, hsucc]

/-- Witness for C3 at three concrete identifiers. -/
theorem c3_bulk_update_reports_input_count_witness :
    (handleBulkUpdateIssues ⟨true⟩
        { issueIds := some ["a", "b", "c"], update := some { priority := some 1 } }
        c3Remote).1 =
      .ok (.text "Successfully updated 3 issues") := by
  have h := c3_bulk_update_reports_input_count ⟨true⟩ ["a", "b", "c"]
    { priority := some 1 } c3Remote rfl rfl
  simpa using h

/-- C4: supplying priority 0 (a present, falsy numeric value) produces a
priority clause `{eq: 0}` in the assembled filter; it is never dropped,
because the code tests `typeof args.priority === "number"` rather than
truthiness. -/
theorem c4_priority_zero_preserved (args : SearchIssuesInput)
    (h : args.priority = some 0) :
    (buildSearchFilter args).priority = some 0 := by
  rw [buildSearchFilter_priority, h]

/-- Witness for C4 at the input consisting only of priority 0. -/
theorem c4_priority_zero_preserved_witness :
    (buildSearchFilter { priority := some 0 }).priority = some 0 :=
  c4_priority_zero_preserved { priority := some 0 } rfl

/-- C5: under valid authentication, `handleSearchIssues` returns the remote
payload passed through unmodified, field for field (pagination cursors
included), as a structured document; the formatter performs no reshaping. -/
theorem c5_search_structured_passthrough (auth : AuthState)
    (args : SearchIssuesInput)
    (remote : SearchIssuesCall → SearchIssuesResponse)
    (hauth : auth.hasValidClient = true) :
    (handleSearchIssues auth args remote).1 =
      .ok (.json (remote (searchIssuesCall args))) := by
  rw [handleSearchIssues_ok auth args remote hauth]

/-- Witness for C5: the pass-through holds at a remote oracle whose payload
carries a pagination cursor. -/
theorem c5_search_structured_passthrough_witness :
    (handleSearchIssues ⟨true⟩ {} c5Remote).1 =
      .ok (.json (c5Remote (searchIssuesCall {}))) :=
  c5_search_structured_passthrough ⟨true⟩ {} c5Remote rfl

/-- C6: the remote invocation of `handleSearchIssues` is made at
`searchIssuesCall args`; when the page-size field is absent that call uses
page size 50, and when the ordering field is absent it uses ordering field
"updatedAt". -/
theorem c6_search_pagination_defaults (auth : AuthState)
    (args : SearchIssuesInput)
    (remote : SearchIssuesCall → SearchIssuesResponse)
    (hauth : auth.hasValidClient = true) :
    (handleSearchIssues auth args remote).1 =
      .ok (.json (remote (searchIssuesCall args))) ∧
    (args.first = none → (searchIssuesCall args).first = 50) ∧
    (args.orderBy = none → (searchIssuesCall args).orderBy = "updatedAt") := by
  refine ⟨by rw [handleSearchIssues_ok auth args remote hauth], ?_, ?_⟩
  · intro hf
    simp [searchIssuesCall, hf]
  · intro ho
    simp [searchIssuesCall, ho]

/-- Witness for C6 at the empty search input. -/
theorem c6_search_pagination_defaults_witness :
    (searchIssuesCall {}).first = 50 ∧
    (searchIssuesCall {}).orderBy = "updatedAt" :=
  ⟨(c6_search_pagination_defaults ⟨true⟩ {} c6Remote rfl).2.1 rfl,
   (c6_search_pagination_defaults ⟨true⟩ {} c6Remote rfl).2.2 rfl⟩

/-- C7: with no valid authenticated client, every modelled handler fails
with the auth error and its trace is exactly the auth check: no
required-field validation and no remote call is ever reached, for every
input and every remote oracle. -/
theorem c7_auth_gate_first (auth : AuthState)
    (hauth : auth.hasValidClient = false) :
    (∀ args remote,
      handleCreateIssue auth args remote = (.error .auth, [.authCheck])) ∧
    (∀ args remote,
      handleBulkUpdateIssues auth args remote = (.error .auth, [.authCheck])) ∧
    (∀ args remote,
      handleSearchIssues auth args remote = (.error .auth, [.authCheck])) ∧
    (∀ args remote,
      handleSearchIssuesByIdentifier auth args remote =
        (.error .auth, [.authCheck])) ∧
    (∀ args remote,
      handleDeleteIssue auth args remote = (.error .auth, [.authCheck])) ∧
    (∀ args remote,
      handleDeleteIssues auth args remote = (.error .auth, [.authCheck])) := by
  refine ⟨?_, ?_, ?_, ?_, ?_, ?_⟩ <;> intro args remote <;>
    simp [handleCreateIssue, createIssueTry, handleBulkUpdateIssues,
          bulkUpdateIssuesTry, handleSearchIssues, searchIssuesTry,
          handleSearchIssuesByIdentifier, searchIssuesByIdentifierTry,
          handleDeleteIssue, deleteIssueTry, handleDeleteIssues,
          deleteIssuesTry, verifyAuth, hauth, catchWith, handleError]

/-- Witness for C7: an unauthenticated create-issue call fails with the auth
error after performing only the auth check. -/
theorem c7_auth_gate_first_witness :
    handleCreateIssue ⟨false⟩ {} (fun _ => ⟨⟨true, none⟩⟩) =
      (.error .auth, [.authCheck]) :=
  (c7_auth_gate_first ⟨false⟩ rfl).1 {} (fun _ => ⟨⟨true, none⟩⟩)

/-- C8: an identifier search whose remote result contains zero matching
issues returns an informational (non-error) message listing exactly the
queried identifiers, joined in the order supplied. -/
theorem c8_identifier_search_no_matches (auth : AuthState) (ids : List String)
    (remote : SearchIssuesCall → SearchIssuesResponse)
    (hauth : auth.hasValidClient = true)
    (hempty : (remote { filter := { identifier := some ids }, first := 100,
                        after := none, orderBy := "updatedAt" }).issues.nodes = []) :
    (handleSearchIssuesByIdentifier auth { identifiers := some ids } remote).1 =
      .ok (.text ("No issues found with identifiers: " ++
        String.intercalate ", " ids)) := by
  simp [handleSearchIssuesByIdentifier, searchIssuesByIdentifierTry, verifyAuth,
        hauth, validateRequiredParams, catchWith, createResponse, hempty]

/-- Witness for C8 at the identifiers MIC-78 and MIC-79. -/
theorem c8_identifier_search_no_matches_witness :
    (handleSearchIssuesByIdentifier ⟨true⟩
        { identifiers := some ["MIC-78", "MIC-79"] } c8Remote).1 =
      .ok (.text "No issues found with identifiers: MIC-78, MIC-79") := by
  have h := c8_identifier_search_no_matches ⟨true⟩ ["MIC-78", "MIC-79"]
    c8Remote rfl rfl
  simpa using h

/-- C9: deleting the issue "ENG-123" with a successful remote result returns
a confirmation whose text contains the string "ENG-123". -/
theorem c9_delete_issue_names_id (auth : AuthState)
    (remote : String → DeleteIssueResponse)
    (hauth : auth.hasValidClient = true)
    (hsucc : (remote "ENG-123").issueDelete.success = true) :
    (handleDeleteIssue auth { id := some "ENG-123" } remote).1 =
      .ok (.text "Successfully deleted issue ENG-123") ∧
    ∃ pre post,
      "Successfully deleted issue ENG-123" = pre ++ "ENG-123" ++ post := by
  refine ⟨?_, "Successfully deleted issue ", "", rfl⟩
  simp [handleDeleteIssue, deleteIssueTry, verifyAuth, hauth,
        validateRequiredParams, catchWith, createResponse, hsucc]

/-- Witness for C9 at a concrete successful remote oracle. -/
theorem c9_delete_issue_names_id_witness :
    (handleDeleteIssue ⟨true⟩ { id := some "ENG-123" } c9Remote).1 =
      .ok (.text "Successfully deleted issue ENG-123") :=
  (c9_delete_issue_names_id ⟨true⟩ c9Remote rfl rfl).1

/-- C10: a search input without an identifier filter whose free-text query
is the empty string yields no search clause (a present-but-empty query is
silently treated as absent), while on the same input a present priority 0 is
preserved as a priority clause. -/
theorem c10_empty_query_dropped (args : SearchIssuesInput)
    (hid : searchIdentifierInput args = none) (hq : args.query = some "") :
    (buildSearchFilter args).search = none ∧
    (args.priority = some 0 → (buildSearchFilter args).priority = some 0) := by
  constructor
  · rw [buildSearchFilter_search, hid, hq]
    simp [jsTruthyStr]
  · intro hp
    rw [buildSearchFilter_priority, hp]

/-- Witness for C10 at the input with empty query and priority 0. -/
theorem c10_empty_query_dropped_witness :
    (buildSearchFilter c10Args).search = none ∧
    (buildSearchFilter c10Args).priority = some 0 :=
  ⟨(c10_empty_query_dropped c10Args rfl rfl).1,
   (c10_empty_query_dropped c10Args rfl rfl).2 rfl⟩

end LinearMcp
